import Mathlib

/-!
# Verification of the cc-switch proxy gateway core

Shallow embedding of the request-routing and failover gateway of cc-switch:
per-app timeout policy (`handler_context.rs`), provider selection and its
error mapping, the SSE relay loop with first-byte/idle deadlines and the
usage collector (`response_processor.rs`), the non-streaming response path,
and the status endpoints (`handlers.rs`, `server.rs`).

Machine integers are modelled as `Nat` (all the quantities involved are
non-negative counters, seconds, or token counts and no overflow-sensitive
arithmetic occurs in the modelled code paths); `rust_decimal::Decimal`
monetary arithmetic is modelled as exact rational arithmetic (`Rat`);
`serde_json::Value` is treated abstractly except for the fields the
modelled code reads.
-/

namespace CcSwitch

/-- A JSON value, abstract: the modelled code only stores and forwards these. -/
structure JsonValue where
  raw : String
deriving DecidableEq, Repr

/-- An upstream provider; the embedding keeps only the identity fields the
modelled code paths read (`provider.id`, `provider.name`). -/
structure Provider where
  id : String
  name : String
deriving DecidableEq, Repr

/-! ## Per-app proxy configuration and timeout policy (`handler_context.rs`) -/

/-- The per-app proxy configuration fields read by `RequestContext`
(`proxy_config` row of the database: `auto_failover_enabled`,
`non_streaming_timeout`, `streaming_first_byte_timeout`,
`streaming_idle_timeout`; all timeouts in seconds, `0` = disabled). -/
structure AppProxyConfig where
  auto_failover_enabled : Bool
  non_streaming_timeout : Nat
  streaming_first_byte_timeout : Nat
  streaming_idle_timeout : Nat
deriving DecidableEq, Repr

/-- `StreamingTimeoutConfig` from `handler_context.rs` (seconds, `0` = disabled). -/
structure StreamingTimeoutConfig where
  first_byte_timeout : Nat
  idle_timeout : Nat
deriving DecidableEq, Repr

/-- The three timeout arguments `RequestContext::create_forwarder` passes to
`RequestForwarder::new`. -/
structure ForwarderTimeouts where
  non_streaming_timeout : Nat
  first_byte_timeout : Nat
  idle_timeout : Nat
deriving DecidableEq, Repr

/-- The timeout-selection logic of `RequestContext::create_forwarder`
(`handler_context.rs`, lines 194-224): failover enabled passes the configured
values through, failover disabled forces all three to `0`. -/
def create_forwarder_timeouts (cfg : AppProxyConfig) : ForwarderTimeouts :=
  if cfg.auto_failover_enabled then
    { non_streaming_timeout := cfg.non_streaming_timeout
      first_byte_timeout := cfg.streaming_first_byte_timeout
      idle_timeout := cfg.streaming_idle_timeout }
  else
    { non_streaming_timeout := 0, first_byte_timeout := 0, idle_timeout := 0 }

/-- `RequestContext::streaming_timeout_config` (`handler_context.rs`,
lines 245-259). -/
def streaming_timeout_config (cfg : AppProxyConfig) : StreamingTimeoutConfig :=
  if cfg.auto_failover_enabled then
    { first_byte_timeout := cfg.streaming_first_byte_timeout
      idle_timeout := cfg.streaming_idle_timeout }
  else
    { first_byte_timeout := 0, idle_timeout := 0 }

/-! ## Provider selection and request-context construction
(`handler_context.rs` lines 122-139, router modelled from the spec) -/

/-- The application-level error variants `RequestContext::new` matches on
(`crate::error::AppError`); variants other than the two named ones are
collapsed into `Database`, matching the catch-all arm in the source which
only uses `e.to_string()`. -/
inductive AppError where
  | AllProvidersCircuitOpen : AppError
  | NoProvidersConfigured : AppError
  | Database : String → AppError
deriving DecidableEq, Repr

/-- `e.to_string()` for the error values above, used by the catch-all arm. -/
def AppError.to_string : AppError → String
  | .AllProvidersCircuitOpen => "all providers circuit open"
  | .NoProvidersConfigured => "no providers configured"
  | .Database s => s

/-- The `ProxyError` variants reachable from `RequestContext::new`. -/
inductive ProxyError where
  | AllProvidersCircuitOpen : ProxyError
  | NoProvidersConfigured : ProxyError
  | NoAvailableProvider : ProxyError
  | DatabaseError : String → ProxyError
deriving DecidableEq, Repr

/-- The circuit-breaker decision for one candidate provider
(`allow_request()` result in the spec's router contract). -/
inductive AttemptDecision where
  | Allowed : AttemptDecision
  | AllowedAsTrial : AttemptDecision
  | Rejected : AttemptDecision
deriving DecidableEq, Repr

/-- Modelled from the spec: `provider_router.rs` is not under `src/`.
Spec 4.2 filter: keep `Allowed` providers, keep at most one `AllowedAsTrial`
provider (the first encountered in order), drop `Rejected` providers. The
boolean records whether a trial slot has already been taken. -/
def router_filter : List (Provider × AttemptDecision) → Bool → List Provider
  | [], _ => []
  | (p, .Allowed) :: rest, trialUsed => p :: router_filter rest trialUsed
  | (p, .AllowedAsTrial) :: rest, false => p :: router_filter rest true
  | (_, .AllowedAsTrial) :: rest, true => router_filter rest true
  | (_, .Rejected) :: rest, trialUsed => router_filter rest trialUsed

/-- Modelled from the spec: `ProviderRouter::select_providers`
(`provider_router.rs` is not under `src/`). Spec 4.2: fetch the app's
configured providers (here given together with each one's breaker decision),
filter them, and if the result is empty report `NoProvidersConfigured` when
zero providers were configured and `AllProvidersCircuitOpen` when all
configured providers were breaker-rejected. -/
def select_providers (candidates : List (Provider × AttemptDecision)) :
    Except AppError (List Provider) :=
  let kept := router_filter candidates false
  if kept.isEmpty then
    if candidates.isEmpty then .error .NoProvidersConfigured
    else .error .AllProvidersCircuitOpen
  else .ok kept

/-- The error-mapping arm of `RequestContext::new` (`handler_context.rs`
lines 128-134). -/
def map_select_error : AppError → ProxyError
  | .AllProvidersCircuitOpen => ProxyError.AllProvidersCircuitOpen
  | .NoProvidersConfigured => ProxyError.NoProvidersConfigured
  | e => ProxyError.DatabaseError e.to_string

/-- The fields of `RequestContext` the modelled code paths read. -/
structure RequestCtx where
  provider : Provider
  providers : List Provider
deriving DecidableEq, Repr

/-- The selection portion of `RequestContext::new` (`handler_context.rs`
lines 122-139), instrumented with a counter of `select_providers`
invocations: the router result is obtained (one invocation), errors are
mapped through `map_select_error`, and an empty successful list yields
`NoAvailableProvider`. -/
def request_context_new (sel : Except AppError (List Provider)) (calls : Nat) :
    Except ProxyError RequestCtx × Nat :=
  let calls := calls + 1
  match sel with
  | .error e => (.error (map_select_error e), calls)
  | .ok providers =>
    match providers.head? with
    | none => (.error ProxyError.NoAvailableProvider, calls)
    | some provider => (.ok ⟨provider, providers⟩, calls)

/-- `RequestContext::get_providers` (`handler_context.rs` lines 229-231):
returns the providers cached at construction, no router call. -/
def get_providers (ctx : RequestCtx) : List Provider :=
  ctx.providers

/-- Modelled from the spec: `RequestForwarder::forward_with_retry`
(`forwarder.rs` is not under `src/`). Spec 4.4: the forwarder only iterates
the failover chain it was handed; it performs no provider selection, so it
leaves the selection-call counter unchanged. -/
def forward_with_retry_select_calls (_chain : List Provider) (calls : Nat) : Nat :=
  calls

/-- One protocol handler's end-to-end selection-call count (`handlers.rs`,
e.g. `handle_messages`): construct the request context (which invokes
`select_providers` once), and on success hand the forwarder the cached chain
via `get_providers`; on error return immediately. -/
def handler_select_calls (sel : Except AppError (List Provider)) : Nat :=
  match request_context_new sel 0 with
  | (.error _, calls) => calls
  | (.ok ctx, calls) => forward_with_retry_select_calls (get_providers ctx) calls

/-! ## SSE usage collector (`response_processor.rs` lines 213-278) -/

/-- The state of `SseUsageCollector` (`response_processor.rs` lines 217-245):
accumulated events, the instant of the first pushed event, the `finished`
guard flag, plus an instrumentation counter of how many times the
`on_complete` callback has run (the callback itself is opaque to the core;
its single invocation is what triggers usage-record persistence). -/
structure CollectorState where
  events : List JsonValue
  first_event_time : Option Nat
  finished : Bool
  callback_runs : Nat
deriving DecidableEq, Repr

/-- `SseUsageCollector::new`: empty events, no first-event time, not
finished (callback never run). -/
def collector_new : CollectorState :=
  { events := [], first_event_time := none, finished := false, callback_runs := 0 }

/-- `SseUsageCollector::push` (`response_processor.rs` lines 248-258):
record the time of the first event, append the event. -/
def collector_push (s : CollectorState) (now : Nat) (e : JsonValue) : CollectorState :=
  { s with
    first_event_time := some (s.first_event_time.getD now)
    events := s.events ++ [e] }

/-- `SseUsageCollector::finish` (`response_processor.rs` lines 261-277):
the `finished.swap(true)` guard returns immediately when already finished;
otherwise the events are taken (`mem::take`) and the completion callback runs
once (counted by `callback_runs`). -/
def collector_finish (s : CollectorState) : CollectorState :=
  if s.finished then s
  else
    { events := []
      first_event_time := s.first_event_time
      finished := true
      callback_runs := s.callback_runs + 1 }

/-! ## Streaming relay with deadlines (`response_processor.rs` lines 527-633)

`create_logged_passthrough_stream` is modelled by the sequence of items it
yields. The upstream stream is a list of polls, each completing after `gap`
seconds with a chunk or a transport error, followed by an end-of-stream
signal that takes `end_gap` seconds; `tokio::time::timeout(d, next)` fires
when the poll takes longer than `d`. The SSE buffer splitting and the
collector pushes inside the loop only feed logging and the usage collector
and do not alter the yielded items, so they are elided from the yield
model (the collector itself is modelled above). -/

/-- One relayed item as observed by the client: a chunk, one of the two
distinct timeout errors, or a propagated upstream stream error. -/
inductive RelayItem where
  | ok : String → RelayItem
  | first_byte_timeout_err : RelayItem
  | idle_timeout_err : RelayItem
  | stream_err : String → RelayItem
deriving DecidableEq, Repr

/-- An upstream byte stream: polls (gap seconds, then chunk or error)
followed by the end-of-stream signal arriving after `end_gap` seconds. -/
structure UpstreamStream where
  steps : List (Nat × Except String String)
  end_gap : Nat
deriving Repr

/-- The deadline the relay loop arms for the next poll
(`response_processor.rs` lines 539-558): the first-byte timeout while no
chunk has arrived, the idle timeout afterwards; a configured value of `0`
means no deadline (`None`). -/
def relay_deadline (tc : StreamingTimeoutConfig) (is_first_chunk : Bool) :
    Option Nat :=
  if is_first_chunk then
    if tc.first_byte_timeout > 0 then some tc.first_byte_timeout else none
  else
    if tc.idle_timeout > 0 then some tc.idle_timeout else none

/-- Whether `tokio::time::timeout(d, next)` fires: only when a deadline is
armed and the poll takes longer. -/
def deadline_expired (d : Option Nat) (gap : Nat) : Bool :=
  match d with
  | some d => decide (gap > d)
  | none => false

/-- The error item yielded on expiry (`response_processor.rs` lines
565-571): the first-byte timeout error before any chunk, the idle
(silent-period) timeout error after. -/
def timeout_err_item (is_first_chunk : Bool) : RelayItem :=
  if is_first_chunk then RelayItem.first_byte_timeout_err
  else RelayItem.idle_timeout_err

/-- The relay loop of `create_logged_passthrough_stream`
(`response_processor.rs` lines 552-627): arm the deadline for the current
phase; on expiry yield the matching timeout error and stop; on a chunk yield
it and continue with `is_first_chunk := false`; on an upstream error yield it
and stop; on end-of-stream (subject to the same armed deadline) stop. -/
def relay_go (tc : StreamingTimeoutConfig) (is_first_chunk : Bool) :
    List (Nat × Except String String) → Nat → List RelayItem
  | [], end_gap =>
    if deadline_expired (relay_deadline tc is_first_chunk) end_gap then
      [timeout_err_item is_first_chunk]
    else []
  | (gap, item) :: rest, end_gap =>
    if deadline_expired (relay_deadline tc is_first_chunk) gap then
      [timeout_err_item is_first_chunk]
    else
      match item with
      | .ok bytes => RelayItem.ok bytes :: relay_go tc false rest end_gap
      | .error e => [RelayItem.stream_err e]

/-- The items `create_logged_passthrough_stream` yields for a given upstream
stream and timeout configuration (the loop starts with
`is_first_chunk = true`). -/
def create_logged_passthrough_relay (tc : StreamingTimeoutConfig)
    (s : UpstreamStream) : List RelayItem :=
  relay_go tc true s.steps s.end_gap

/-! ## Usage and cost accounting (`response_processor.rs` lines 390-480,
`usage/logger.rs` modelled from the spec) -/

/-- `TokenUsage` (`usage/parser.rs` is not under `src/`; the fields are
pinned by the literals constructed in the `response_processor.rs` tests). -/
structure TokenUsage where
  input_tokens : Nat
  output_tokens : Nat
  cache_read_tokens : Nat
  cache_creation_tokens : Nat
  model : Option String
deriving DecidableEq, Repr

/-- `TokenUsage::default()`: all token counts zero, no model. -/
def TokenUsage.default : TokenUsage :=
  { input_tokens := 0, output_tokens := 0, cache_read_tokens := 0
    cache_creation_tokens := 0, model := none }

/-- The provider-level pricing overrides held in `ProviderMeta`
(`cost_multiplier`, `pricing_model_source`), as set by the
`response_processor.rs` tests. `Decimal` values are modelled as exact
rationals. -/
structure ProviderPricingMeta where
  cost_multiplier : Option Rat
  pricing_model_source : Option String

/-- The app-wide pricing defaults (`set_default_cost_multiplier`,
`set_pricing_model_source`). -/
structure AppPricingDefaults where
  default_cost_multiplier : Rat
  pricing_model_source : String

/-- Modelled from the spec: `UsageLogger::resolve_pricing_config`
(`usage/logger.rs` is not under `src/`). Spec 4.6: the provider-specific
override takes precedence over the app-wide default, for both the cost
multiplier and the pricing-model source. -/
def resolve_pricing_config (meta : ProviderPricingMeta)
    (d : AppPricingDefaults) : Rat × String :=
  (meta.cost_multiplier.getD d.default_cost_multiplier,
   meta.pricing_model_source.getD d.pricing_model_source)

/-- The pricing-model selection of `log_usage_internal`
(`response_processor.rs` lines 445-449): source `"request"` prices against
the request's declared model, anything else against the billed model. -/
def pricing_model_choice (pricing_model_source model request_model : String) :
    String :=
  if pricing_model_source = "request" then request_model else model

/-- One `model_pricing` row: per-million-token prices, modelled as exact
rationals. -/
structure ModelPricing where
  input_cost_per_million : Rat
  output_cost_per_million : Rat
  cache_read_cost_per_million : Rat
  cache_creation_cost_per_million : Rat

/-- Modelled from the spec: the cost calculation of
`UsageLogger::log_with_calculation` (`usage/logger.rs` is not under
`src/`). Spec 4.6: per-token-type price lookup from the pricing table,
defaulting to zero cost for unknown models; total cost =
(sum of tokens times per-million price) / 10^6 times the multiplier, in
decimal (here exact rational) arithmetic. -/
def calc_total_cost (pricing_table : String → Option ModelPricing)
    (pricing_model : String) (u : TokenUsage) (multiplier : Rat) : Rat :=
  match pricing_table pricing_model with
  | none => 0
  | some p =>
    ((u.input_tokens : Rat) * p.input_cost_per_million
        + (u.output_tokens : Rat) * p.output_cost_per_million
        + (u.cache_read_tokens : Rat) * p.cache_read_cost_per_million
        + (u.cache_creation_tokens : Rat) * p.cache_creation_cost_per_million)
      / 1000000 * multiplier

/-- The pricing-relevant portion of `log_usage_internal`
(`response_processor.rs` lines 427-480): resolve the multiplier and the
pricing-model source, choose the model to price against, compute the total
cost of the usage record. Returns (total cost, pricing model used). -/
def log_usage_internal_cost (meta : ProviderPricingMeta)
    (d : AppPricingDefaults) (pricing_table : String → Option ModelPricing)
    (model request_model : String) (u : TokenUsage) : Rat × String :=
  let resolved := resolve_pricing_config meta d
  let pricing_model := pricing_model_choice resolved.2 model request_model
  (calc_total_cost pricing_table pricing_model u resolved.1, pricing_model)

/-! ## Non-streaming response path (`response_processor.rs` lines 89-191) -/

/-- The one field of a successfully parsed JSON response body the
non-streaming path reads directly: the optional top-level `"model"` string
field (the rest of the value flows only into the opaque per-protocol usage
parser). -/
structure ParsedJson where
  model_field : Option String
deriving DecidableEq, Repr

/-- The upstream response after its body bytes have been read. -/
structure UpstreamResponse where
  status : Nat
  headers : List (String × String)
  body : String
deriving DecidableEq, Repr

/-- The response handed back to the client. -/
structure ClientResponse where
  status : Nat
  headers : List (String × String)
  body : String
deriving DecidableEq, Repr

/-- One usage-record persistence task spawned through `spawn_log_usage`
(`response_processor.rs` lines 390-423): the arguments the non-streaming
handler passes it. -/
structure UsageSpawn where
  usage : TokenUsage
  model : String
  request_model : String
  status_code : Nat
  is_streaming : Bool
deriving DecidableEq, Repr

/-- `handle_non_streaming` (`response_processor.rs` lines 89-191) after the
body bytes have been read: `parsed` is the outcome of the
`serde_json::from_slice` attempt (`none` when the body is not valid JSON)
and `parse_usage` is the pluggable per-protocol usage parser. Returns
the spawned usage-record persists (in order) and the response sent to the
client, which is built from the upstream status, headers and body bytes. -/
def handle_non_streaming (parse_usage : ParsedJson → Option TokenUsage)
    (upstream : UpstreamResponse) (parsed : Option ParsedJson)
    (request_model : String) : List UsageSpawn × ClientResponse :=
  let spawns :=
    match parsed with
    | some json_value =>
      match parse_usage json_value with
      | some usage =>
        let model :=
          match usage.model with
          | some m => m
          | none =>
            match json_value.model_field with
            | some m => m
            | none => request_model
        [⟨usage, model, request_model, upstream.status, false⟩]
      | none =>
        let model := json_value.model_field.getD request_model
        [⟨TokenUsage.default, model, request_model, upstream.status, false⟩]
    | none =>
      [⟨TokenUsage.default, request_model, request_model, upstream.status,
        false⟩]
  (spawns, ⟨upstream.status, upstream.headers, upstream.body⟩)

/-! ## Status endpoints (`handlers.rs` lines 43-46, `server.rs` lines
113-120 and 179-211) -/

/-- One entry of the `active_targets` view (`ActiveTarget` in the status
payload). -/
structure ActiveTarget where
  app_type : String
  provider_id : String
  provider_name : String
deriving DecidableEq, Repr

/-- `ProxyStatus` (`types.rs` is not under `src/`; the fields are pinned by
the reads and writes in `server.rs`). -/
structure ProxyStatus where
  running : Bool
  address : String
  port : Nat
  uptime_seconds : Nat
  active_targets : List ActiveTarget
deriving DecidableEq, Repr

/-- `ProxyStatus::default()`: not running, empty address, zero port and
uptime, no active targets. -/
def ProxyStatus.default : ProxyStatus :=
  { running := false, address := "", port := 0, uptime_seconds := 0
    active_targets := [] }

/-- The parts of the shared `ProxyState`/`ProxyServer` state the status
queries touch: the stored status object, the recorded start instant, and
the per-app current-provider map (`app_type`, (`provider_id`,
`provider_name`)), here an association list. -/
structure ServerState where
  status : ProxyStatus
  start_time : Option Nat
  current_providers : List (String × String × String)

/-- `handlers::get_status`, the handler of the `GET /status` route
(`handlers.rs` lines 43-46): returns a clone of the stored status object,
unmodified. -/
def handlers_get_status (st : ServerState) : ProxyStatus :=
  st.status

/-- `ProxyServer::get_status` (`server.rs` lines 179-199) evaluated at time
`now`: clone the stored status, overwrite `uptime_seconds` from the start
instant when one is recorded, and rebuild `active_targets` from the
current-provider map. -/
def proxy_server_get_status (st : ServerState) (now : Nat) : ProxyStatus :=
  let s := st.status
  let s :=
    match st.start_time with
    | some start => { s with uptime_seconds := now - start }
    | none => s
  { s with
    active_targets := st.current_providers.map fun p => ⟨p.1, p.2.1, p.2.2⟩ }

/-- The stored status right after `ProxyServer::start` (`server.rs` lines
113-117): `running`, `address` and `port` are set on the default value;
`uptime_seconds` and `active_targets` are not written — no code path in the
server ever writes those two fields of the stored status. -/
def server_status_after_start (address : String) (port : Nat) : ProxyStatus :=
  { ProxyStatus.default with running := true, address := address, port := port }

/-! ## Theorems -/

/-- C1: with auto-failover disabled, `create_forwarder` hands the forwarder
all three timeouts as `0` (disabled) and `streaming_timeout_config` returns
`0` for both streaming timeouts, regardless of the configured values; with
auto-failover enabled, the configured values pass through unchanged. -/
theorem c1_failover_disabled_forces_timeouts_off (cfg : AppProxyConfig) :
    (cfg.auto_failover_enabled = false →
      create_forwarder_timeouts cfg = ⟨0, 0, 0⟩ ∧
      streaming_timeout_config cfg = ⟨0, 0⟩) ∧
    (cfg.auto_failover_enabled = true →
      create_forwarder_timeouts cfg =
        ⟨cfg.non_streaming_timeout, cfg.streaming_first_byte_timeout,
          cfg.streaming_idle_timeout⟩ ∧
      streaming_timeout_config cfg =
        ⟨cfg.streaming_first_byte_timeout, cfg.streaming_idle_timeout⟩) := by
  refine ⟨fun h => ?_, fun h => ?_⟩ <;>
    simp [create_forwarder_timeouts, streaming_timeout_config, h]

/-- C1 witness: a config with failover disabled and non-zero timeouts has all
three forwarder timeouts and both streaming timeouts forced to `0`. -/
theorem c1_witness :
    create_forwarder_timeouts ⟨false, 600, 60, 120⟩ = ⟨0, 0, 0⟩ ∧
    streaming_timeout_config ⟨false, 600, 60, 120⟩ = ⟨0, 0⟩ :=
  (c1_failover_disabled_forces_timeouts_off ⟨false, 600, 60, 120⟩).1 rfl

/-- C2: over the whole handler pipeline — context construction followed, on
success, by forwarding with the context's cached provider list — the router's
`select_providers` is invoked exactly once, whatever the selection result
(error, empty list, or non-empty list). -/
theorem c2_select_providers_called_exactly_once
    (sel : Except AppError (List Provider)) :
    handler_select_calls sel = 1 := by
  cases sel with
  | error e => rfl
  | ok ps => cases ps <;> rfl

/-- C5: router errors are mapped to the matching typed `ProxyError`
(`AllProvidersCircuitOpen`, `NoProvidersConfigured`, catch-all to
`DatabaseError`), a successful-but-empty selection yields
`NoAvailableProvider`, and zero configured providers yield
`NoProvidersConfigured` from the router — the router never returns an empty
successful chain. -/
theorem c5_selection_failures_are_typed_errors (s : String)
    (candidates : List (Provider × AttemptDecision)) :
    (request_context_new (.error .AllProvidersCircuitOpen) 0).1 =
      .error ProxyError.AllProvidersCircuitOpen ∧
    (request_context_new (.error .NoProvidersConfigured) 0).1 =
      .error ProxyError.NoProvidersConfigured ∧
    (request_context_new (.error (.Database s)) 0).1 =
      .error (ProxyError.DatabaseError s) ∧
    (request_context_new (.ok []) 0).1 = .error ProxyError.NoAvailableProvider ∧
    select_providers [] = .error AppError.NoProvidersConfigured ∧
    (request_context_new (select_providers []) 0).1 =
      .error ProxyError.NoProvidersConfigured ∧
    select_providers candidates ≠ .ok [] := by
  refine ⟨rfl, rfl, rfl, rfl, rfl, rfl, fun h => ?_⟩
  unfold select_providers at h
  by_cases hk : (router_filter candidates false).isEmpty
  · rw [if_pos hk] at h
    by_cases hc : candidates.isEmpty
    · rw [if_pos hc] at h
      exact Except.noConfusion h
    · rw [if_neg hc] at h
      exact Except.noConfusion h
  · rw [if_neg hk] at h
    injection h with h2
    rw [h2] at hk
    exact hk rfl

/-! helper lemmas for the collector and the relay loop -/

theorem collector_finish_of_finished (s : CollectorState) (h : s.finished = true) :
    collector_finish s = s := by
  simp [collector_finish, h]

theorem collector_finish_finished (s : CollectorState) :
    (collector_finish s).finished = true := by
  unfold collector_finish
  split
  · next h => exact h
  · rfl

theorem collector_finish_idem (s : CollectorState) :
    collector_finish (collector_finish s) = collector_finish s :=
  collector_finish_of_finished _ (collector_finish_finished s)

theorem collector_finish_iterate (n : Nat) (s : CollectorState) :
    collector_finish^[n] (collector_finish s) = collector_finish s := by
  induction n with
  | zero => rfl
  | succ m ih => rw [Function.iterate_succ_apply, collector_finish_idem, ih]

/-- C3: stream finalization is idempotent — any sequence of `n ≥ 1` calls to
`SseUsageCollector::finish` is indistinguishable from a single call; on an
unfinished collector the single call runs the completion callback exactly
once, and on an already-finished collector a call has no effect at all. -/
theorem c3_stream_finalization_idempotent (s : CollectorState) (n : Nat)
    (hn : 1 ≤ n) :
    collector_finish^[n] s = collector_finish s ∧
    (s.finished = false →
      (collector_finish s).callback_runs = s.callback_runs + 1) ∧
    (s.finished = true → collector_finish s = s) := by
  refine ⟨?_, fun h => ?_, fun h => collector_finish_of_finished s h⟩
  · obtain ⟨k, rfl⟩ := Nat.exists_eq_add_of_le hn
    rw [Nat.add_comm, Function.iterate_succ_apply]
    exact collector_finish_iterate k s
  · simp [collector_finish, h]

/-- C3 witness: finishing a fresh collector (one buffered event) twice runs
the completion callback exactly once. -/
theorem c3_witness :
    (collector_finish^[2] ⟨[⟨"event"⟩], some 3, false, 0⟩).callback_runs = 1 := by
  have h := c3_stream_finalization_idempotent ⟨[⟨"event"⟩], some 3, false, 0⟩ 2
    (by decide)
  rw [h.1, h.2.1 rfl]

theorem idle_within_not_expired (tc : StreamingTimeoutConfig) (gap : Nat)
    (h : gap ≤ tc.idle_timeout) :
    deadline_expired (relay_deadline tc false) gap = false := by
  show deadline_expired
    (if tc.idle_timeout > 0 then some tc.idle_timeout else none) gap = false
  split
  · simp only [deadline_expired, decide_eq_false_iff_not, gt_iff_lt, not_lt]
    exact h
  · rfl

theorem idle_expired_of_gt (tc : StreamingTimeoutConfig) (gap : Nat)
    (hpos : 0 < tc.idle_timeout) (hgt : tc.idle_timeout < gap) :
    deadline_expired (relay_deadline tc false) gap = true := by
  show deadline_expired
    (if tc.idle_timeout > 0 then some tc.idle_timeout else none) gap = true
  rw [if_pos hpos]
  simp only [deadline_expired, decide_eq_true_iff, gt_iff_lt]
  exact hgt

theorem first_byte_within_not_expired (tc : StreamingTimeoutConfig) (gap : Nat)
    (h : gap ≤ tc.first_byte_timeout ∨ tc.first_byte_timeout = 0) :
    deadline_expired (relay_deadline tc true) gap = false := by
  show deadline_expired
    (if tc.first_byte_timeout > 0 then some tc.first_byte_timeout else none)
    gap = false
  split
  · next hpos =>
    simp only [deadline_expired, decide_eq_false_iff_not, gt_iff_lt, not_lt]
    omega
  · rfl

theorem first_byte_expired_of_gt (tc : StreamingTimeoutConfig) (gap : Nat)
    (hpos : 0 < tc.first_byte_timeout) (hgt : tc.first_byte_timeout < gap) :
    deadline_expired (relay_deadline tc true) gap = true := by
  show deadline_expired
    (if tc.first_byte_timeout > 0 then some tc.first_byte_timeout else none)
    gap = true
  rw [if_pos hpos]
  simp only [deadline_expired, decide_eq_true_iff, gt_iff_lt]
  exact hgt

theorem relay_go_false_no_first_byte_err (tc : StreamingTimeoutConfig)
    (steps : List (Nat × Except String String)) (eg : Nat) :
    RelayItem.first_byte_timeout_err ∉ relay_go tc false steps eg := by
  induction steps with
  | nil =>
    simp only [relay_go]
    split
    · simp [timeout_err_item]
    · simp
  | cons hd tl ih =>
    obtain ⟨gap, item⟩ := hd
    simp only [relay_go]
    split
    · simp [timeout_err_item]
    · cases item with
      | ok bytes => simp [ih]
      | error e => simp

theorem relay_go_idle_zero_no_idle_err (tc : StreamingTimeoutConfig)
    (h : tc.idle_timeout = 0) (b : Bool)
    (steps : List (Nat × Except String String)) (eg : Nat) :
    RelayItem.idle_timeout_err ∉ relay_go tc b steps eg := by
  induction steps generalizing b with
  | nil =>
    simp only [relay_go]
    split
    · next hexp =>
      cases b with
      | true => simp [timeout_err_item]
      | false => simp [relay_deadline, deadline_expired, h] at hexp
    · simp
  | cons hd tl ih =>
    obtain ⟨gap, item⟩ := hd
    simp only [relay_go]
    split
    · next hexp =>
      cases b with
      | true => simp [timeout_err_item]
      | false => simp [relay_deadline, deadline_expired, h] at hexp
    · cases item with
      | ok bytes => simp [ih false]
      | error e => simp

theorem relay_go_all_within (tc : StreamingTimeoutConfig)
    (chunks : List (Nat × String)) (eg : Nat)
    (hall : ∀ p ∈ chunks, p.1 ≤ tc.idle_timeout) (heg : eg ≤ tc.idle_timeout) :
    relay_go tc false (chunks.map fun p => (p.1, Except.ok p.2)) eg =
      chunks.map fun p => RelayItem.ok p.2 := by
  induction chunks with
  | nil =>
    simp only [List.map_nil, relay_go, idle_within_not_expired tc eg heg,
      Bool.false_eq_true, if_false]
  | cons hd tl ih =>
    obtain ⟨gap, bytes⟩ := hd
    have hhd : gap ≤ tc.idle_timeout := hall _ (List.mem_cons_self _ _)
    simp only [List.map_cons, relay_go, idle_within_not_expired tc gap hhd,
      Bool.false_eq_true, if_false]
    exact congrArg (RelayItem.ok bytes :: ·)
      (ih fun p hp => hall p (List.mem_cons_of_mem _ hp))

/-- C4: streaming-relay deadline semantics. The two timeout errors are
distinct; expiry of a positive first-byte timeout before any chunk aborts
with the first-byte error alone; a zero first-byte (resp. idle) timeout
never produces that timeout's error on any stream; a mid-stream gap beyond a
positive idle timeout aborts right after the already-relayed chunk with the
idle error; and the idle deadline is re-armed per chunk — a stream whose
every subsequent gap is within the idle timeout relays completely however
large the total duration. -/
theorem c4_streaming_timeout_semantics (tc : StreamingTimeoutConfig)
    (g1 g2 eg : Nat) (b1 : String) (item1 item2 : Except String String)
    (rest : List (Nat × Except String String)) (chunks : List (Nat × String))
    (s : UpstreamStream) :
    RelayItem.first_byte_timeout_err ≠ RelayItem.idle_timeout_err ∧
    (0 < tc.first_byte_timeout → tc.first_byte_timeout < g1 →
      create_logged_passthrough_relay tc ⟨(g1, item1) :: rest, eg⟩ =
        [RelayItem.first_byte_timeout_err]) ∧
    (tc.first_byte_timeout = 0 →
      RelayItem.first_byte_timeout_err ∉ create_logged_passthrough_relay tc s) ∧
    (tc.idle_timeout = 0 →
      RelayItem.idle_timeout_err ∉ create_logged_passthrough_relay tc s) ∧
    ((g1 ≤ tc.first_byte_timeout ∨ tc.first_byte_timeout = 0) →
      0 < tc.idle_timeout → tc.idle_timeout < g2 →
      create_logged_passthrough_relay tc
          ⟨(g1, Except.ok b1) :: (g2, item2) :: rest, eg⟩ =
        [RelayItem.ok b1, RelayItem.idle_timeout_err]) ∧
    ((g1 ≤ tc.first_byte_timeout ∨ tc.first_byte_timeout = 0) →
      (∀ p ∈ chunks, p.1 ≤ tc.idle_timeout) → eg ≤ tc.idle_timeout →
      create_logged_passthrough_relay tc
          ⟨(g1, Except.ok b1) :: (chunks.map fun p => (p.1, Except.ok p.2)),
            eg⟩ =
        RelayItem.ok b1 :: (chunks.map fun p => RelayItem.ok p.2)) := by
  refine ⟨by decide, fun hpos hgt => ?_, fun hz => ?_, fun hz => ?_,
    fun hfb hpos hgt => ?_, fun hfb hall heg => ?_⟩
  · simp only [create_logged_passthrough_relay, relay_go,
      first_byte_expired_of_gt tc g1 hpos hgt, if_true, timeout_err_item]
  · obtain ⟨steps, eg'⟩ := s
    cases steps with
    | nil =>
      simp only [create_logged_passthrough_relay, relay_go,
        first_byte_within_not_expired tc eg' (Or.inr hz), Bool.false_eq_true,
        if_false]
      simp
    | cons hd tl =>
      obtain ⟨gap, item⟩ := hd
      simp only [create_logged_passthrough_relay, relay_go,
        first_byte_within_not_expired tc gap (Or.inr hz), Bool.false_eq_true,
        if_false]
      cases item with
      | ok bytes => simp [relay_go_false_no_first_byte_err]
      | error e => simp
  · exact relay_go_idle_zero_no_idle_err tc hz true s.steps s.end_gap
  · simp only [create_logged_passthrough_relay, relay_go,
      first_byte_within_not_expired tc g1 hfb, Bool.false_eq_true, if_false,
      idle_expired_of_gt tc g2 hpos hgt, if_true, timeout_err_item]
  · simp only [create_logged_passthrough_relay, relay_go,
      first_byte_within_not_expired tc g1 hfb, Bool.false_eq_true, if_false]
    exact congrArg (RelayItem.ok b1 :: ·)
      (relay_go_all_within tc chunks eg hall heg)

/-- C4 witness: with a 2-second first-byte and 2-second idle timeout — a
stream silent for 3 seconds aborts with the first-byte error; a 5-second gap
between chunk 1 and chunk 2 aborts with the idle error right after chunk 1;
chunks each arriving within 2 seconds all relay even though the total
exceeds the timeouts. -/
theorem c4_witness :
    create_logged_passthrough_relay ⟨2, 2⟩ ⟨[(3, Except.ok "x")], 0⟩ =
      [RelayItem.first_byte_timeout_err] ∧
    create_logged_passthrough_relay ⟨2, 2⟩
        ⟨[(1, Except.ok "a"), (5, Except.ok "b")], 1⟩ =
      [RelayItem.ok "a", RelayItem.idle_timeout_err] ∧
    create_logged_passthrough_relay ⟨2, 2⟩
        ⟨[(1, Except.ok "a"), (2, Except.ok "b"), (2, Except.ok "c")], 1⟩ =
      [RelayItem.ok "a", RelayItem.ok "b", RelayItem.ok "c"] :=
  ⟨(c4_streaming_timeout_semantics ⟨2, 2⟩ 3 0 0 "" (Except.ok "x")
      (Except.ok "") [] [] ⟨[], 0⟩).2.1 (by decide) (by decide),
   (c4_streaming_timeout_semantics ⟨2, 2⟩ 1 5 1 "a" (Except.ok "a")
      (Except.ok "b") [] [] ⟨[], 0⟩).2.2.2.2.1 (Or.inl (by decide))
      (by decide) (by decide),
   (c4_streaming_timeout_semantics ⟨2, 2⟩ 1 0 1 "a" (Except.ok "a")
      (Except.ok "") [] [(2, "b"), (2, "c")] ⟨[], 0⟩).2.2.2.2.2
      (Or.inl (by decide)) (by decide) (by decide)⟩

/-- C5 witness: the mapping evaluated at a concrete store-error string and a
concrete all-rejected candidate list. -/
theorem c5_witness :
    (request_context_new (.error .AllProvidersCircuitOpen) 0).1 =
      .error ProxyError.AllProvidersCircuitOpen ∧
    (request_context_new (.error .NoProvidersConfigured) 0).1 =
      .error ProxyError.NoProvidersConfigured ∧
    (request_context_new (.error (.Database "disk I/O error")) 0).1 =
      .error (ProxyError.DatabaseError "disk I/O error") ∧
    (request_context_new (.ok []) 0).1 = .error ProxyError.NoAvailableProvider ∧
    select_providers [] = .error AppError.NoProvidersConfigured ∧
    (request_context_new (select_providers []) 0).1 =
      .error ProxyError.NoProvidersConfigured ∧
    select_providers [(⟨"p1", "P1"⟩, AttemptDecision.Rejected)] ≠ .ok [] :=
  c5_selection_failures_are_typed_errors "disk I/O error"
    [(⟨"p1", "P1"⟩, AttemptDecision.Rejected)]

/-- C6: the provider-specific cost multiplier takes precedence over the
app-wide default; a pricing-model source of `"request"` prices against the
request's declared model; and in the spec's concrete scenario — provider
multiplier 2 over app default 1.5, source `"request"`, request model priced
2.0 per million input tokens, 1,000,000 input tokens — the total recorded
cost is exactly 4, in exact (rational, drift-free) arithmetic. -/
theorem c6_cost_resolution (meta : ProviderPricingMeta)
    (d : AppPricingDefaults) (m : Rat) (model request_model : String) :
    (meta.cost_multiplier = some m →
      (resolve_pricing_config meta d).1 = m) ∧
    pricing_model_choice "request" model request_model = request_model ∧
    log_usage_internal_cost ⟨some 2, some "request"⟩ ⟨3 / 2, "response"⟩
      (fun pm =>
        if pm = "req-model" then some ⟨2, 0, 0, 0⟩
        else if pm = "resp-model" then some ⟨1, 0, 0, 0⟩ else none)
      "resp-model" "req-model" ⟨1000000, 0, 0, 0, none⟩ =
      (4, "req-model") := by
  refine ⟨fun h => ?_, rfl, ?_⟩
  · simp [resolve_pricing_config, h]
  · norm_num [log_usage_internal_cost, resolve_pricing_config,
      pricing_model_choice, calc_total_cost]

/-- C6 witness: the resolved multiplier is the provider override `2`, and
the concrete scenario's total cost is exactly `4` against `req-model`. -/
theorem c6_witness :
    (resolve_pricing_config ⟨some 2, some "request"⟩
        ⟨3 / 2, "response"⟩).1 = 2 ∧
    log_usage_internal_cost ⟨some 2, some "request"⟩ ⟨3 / 2, "response"⟩
      (fun pm =>
        if pm = "req-model" then some ⟨2, 0, 0, 0⟩
        else if pm = "resp-model" then some ⟨1, 0, 0, 0⟩ else none)
      "resp-model" "req-model" ⟨1000000, 0, 0, 0, none⟩ =
      (4, "req-model") :=
  ⟨(c6_cost_resolution ⟨some 2, some "request"⟩ ⟨3 / 2, "response"⟩ 2
      "resp-model" "req-model").1 rfl,
   (c6_cost_resolution ⟨some 2, some "request"⟩ ⟨3 / 2, "response"⟩ 2
      "resp-model" "req-model").2.2⟩

/-- C7: in the buffered path, when the usage parser returns a usage value,
the billed model is the parser-extracted model when present, else the
response JSON's top-level `"model"` field, else the request's declared
model. -/
theorem c7_billed_model_preference (rp : ParsedJson → Option TokenUsage)
    (upstream : UpstreamResponse) (j : ParsedJson) (u : TokenUsage)
    (request_model m : String) (h : rp j = some u) :
    (u.model = some m →
      (handle_non_streaming rp upstream (some j) request_model).1.map
        UsageSpawn.model = [m]) ∧
    (u.model = none → j.model_field = some m →
      (handle_non_streaming rp upstream (some j) request_model).1.map
        UsageSpawn.model = [m]) ∧
    (u.model = none → j.model_field = none →
      (handle_non_streaming rp upstream (some j) request_model).1.map
        UsageSpawn.model = [request_model]) := by
  refine ⟨fun h1 => ?_, fun h1 h2 => ?_, fun h1 h2 => ?_⟩
  · simp [handle_non_streaming, h, h1]
  · simp [handle_non_streaming, h, h1, h2]
  · simp [handle_non_streaming, h, h1, h2]

/-- C7 witness: a parser-extracted model wins over both the response's
`"model"` field and the request model. -/
theorem c7_witness :
    (handle_non_streaming (fun _ => some ⟨1, 2, 0, 0, some "parsed-model"⟩)
        ⟨200, [], "body"⟩ (some ⟨some "resp-model"⟩) "req-model").1.map
      UsageSpawn.model = ["parsed-model"] :=
  (c7_billed_model_preference (fun _ => some ⟨1, 2, 0, 0, some "parsed-model"⟩)
      ⟨200, [], "body"⟩ ⟨some "resp-model"⟩ ⟨1, 2, 0, 0, some "parsed-model"⟩
      "req-model" "parsed-model" rfl).1 rfl

/-- C8: in the buffered path with no transform adapter active, the response
returned to the client carries exactly the upstream status code, the
upstream headers and the upstream body bytes, whatever the JSON-parse and
usage-parse outcomes. -/
theorem c8_non_streaming_pass_through (rp : ParsedJson → Option TokenUsage)
    (upstream : UpstreamResponse) (parsed : Option ParsedJson)
    (request_model : String) :
    (handle_non_streaming rp upstream parsed request_model).2.status =
        upstream.status ∧
    (handle_non_streaming rp upstream parsed request_model).2.headers =
        upstream.headers ∧
    (handle_non_streaming rp upstream parsed request_model).2.body =
        upstream.body :=
  ⟨rfl, rfl, rfl⟩

/-- C10: `handle_non_streaming` spawns exactly one usage-record
persistence for every upstream response; a non-JSON body persists an
all-zero record against the request model, a JSON body the parser rejects
persists an all-zero record against the response's `"model"` field (falling
back to the request model), and in every case the client still receives the
upstream status. -/
theorem c10_exactly_one_usage_spawn (rp : ParsedJson → Option TokenUsage)
    (upstream : UpstreamResponse) (parsed : Option ParsedJson)
    (request_model : String) (j : ParsedJson) :
    (handle_non_streaming rp upstream parsed request_model).1.length = 1 ∧
    (handle_non_streaming rp upstream none request_model).1 =
      [⟨TokenUsage.default, request_model, request_model, upstream.status,
        false⟩] ∧
    (rp j = none →
      (handle_non_streaming rp upstream (some j) request_model).1 =
        [⟨TokenUsage.default, j.model_field.getD request_model, request_model,
          upstream.status, false⟩]) ∧
    (handle_non_streaming rp upstream parsed request_model).2.status =
      upstream.status := by
  refine ⟨?_, rfl, fun h => ?_, rfl⟩
  · cases parsed with
    | none => rfl
    | some jv => cases hrp : rp jv <;> simp [handle_non_streaming, hrp]
  · simp [handle_non_streaming, h]

/-- C10 witness: a non-JSON (HTML) 502 body still spawns exactly one
usage record, all-zero, against the request model. -/
theorem c10_witness :
    (handle_non_streaming (fun _ => none) ⟨502, [], "<html>"⟩ (some ⟨none⟩)
        "req-model").1 =
      [⟨TokenUsage.default, "req-model", "req-model", 502, false⟩] :=
  (c10_exactly_one_usage_spawn (fun _ => none) ⟨502, [], "<html>"⟩
      (some ⟨none⟩) "req-model" ⟨none⟩).2.2.1 rfl

/-- C9 counterexample: a concrete post-start server state (start instant 0,
queried at time 60, one current provider for `claude`): the `GET /status`
route handler returns the stored status with uptime `0` and no active
targets, differing from the full `ProxyServer::get_status` snapshot, which
reports uptime `60` and the active target. So `GET /status` does not return
the current uptime and active targets. -/
theorem c9_counterexample :
    handlers_get_status
        ⟨server_status_after_start "127.0.0.1" 15721, some 0,
          [("claude", "p1", "Provider One")]⟩ ≠
      proxy_server_get_status
        ⟨server_status_after_start "127.0.0.1" 15721, some 0,
          [("claude", "p1", "Provider One")]⟩ 60 ∧
    (handlers_get_status
        ⟨server_status_after_start "127.0.0.1" 15721, some 0,
          [("claude", "p1", "Provider One")]⟩).uptime_seconds = 0 ∧
    (handlers_get_status
        ⟨server_status_after_start "127.0.0.1" 15721, some 0,
          [("claude", "p1", "Provider One")]⟩).active_targets = [] ∧
    (proxy_server_get_status
        ⟨server_status_after_start "127.0.0.1" 15721, some 0,
          [("claude", "p1", "Provider One")]⟩ 60).uptime_seconds = 60 ∧
    (proxy_server_get_status
        ⟨server_status_after_start "127.0.0.1" 15721, some 0,
          [("claude", "p1", "Provider One")]⟩ 60).active_targets =
      [⟨"claude", "p1", "Provider One"⟩] := by
  refine ⟨?_, rfl, rfl, rfl, rfl⟩
  decide

/-- C9 (amended): the `GET /status` route returns the stored status object
unchanged — its running flag, address and port are current, but its uptime
and active-target fields keep the stored (never-refreshed) values, `0` and
empty after start; the snapshot with computed uptime and current active
targets is produced only by `ProxyServer::get_status`. -/
theorem c9_status_route_returns_stored_status (st : ServerState)
    (now start : Nat) (addr : String) (port : Nat) :
    handlers_get_status st = st.status ∧
    (handlers_get_status ⟨server_status_after_start addr port, some start,
        st.current_providers⟩).uptime_seconds = 0 ∧
    (handlers_get_status ⟨server_status_after_start addr port, some start,
        st.current_providers⟩).active_targets = [] ∧
    (st.start_time = some start →
      (proxy_server_get_status st now).uptime_seconds = now - start) ∧
    (proxy_server_get_status st now).active_targets =
      st.current_providers.map (fun p => ⟨p.1, p.2.1, p.2.2⟩) ∧
    (proxy_server_get_status st now).running = st.status.running ∧
    (proxy_server_get_status st now).address = st.status.address := by
  refine ⟨rfl, rfl, rfl, fun h => ?_, ?_, ?_, ?_⟩
  · simp [proxy_server_get_status, h]
  · rcases hst : st.start_time with _ | start'
    · simp [proxy_server_get_status, hst]
    · simp [proxy_server_get_status, hst]
  · rcases hst : st.start_time with _ | start'
    · simp [proxy_server_get_status, hst]
    · simp [proxy_server_get_status, hst]
  · rcases hst : st.start_time with _ | start'
    · simp [proxy_server_get_status, hst]
    · simp [proxy_server_get_status, hst]

/-- C9 witness: the amended claim evaluated on a concrete state — the route
returns the stored status and the server accessor computes uptime 60. -/
theorem c9_witness :
    (proxy_server_get_status ⟨server_status_after_start "0.0.0.0" 8080,
        some 5, [("codex", "p2", "P2")]⟩ 65).uptime_seconds = 60 :=
  (c9_status_route_returns_stored_status
      ⟨server_status_after_start "0.0.0.0" 8080, some 5, [("codex", "p2", "P2")]⟩
      65 5 "0.0.0.0" 8080).2.2.2.1 rfl

end CcSwitch
